import Mathlib

/-!
Verification development for the `term-ctrl` crate: a shallow embedding of
its sequence-building macros (`codes!`, `seq!`, `term_seq!`, the 256-colour
and RGB helper macros), its stream-capability checks across the two
revisions found in the repository (the `isatty`-based `StdPipe` API in the
old `lib.rs`, and the `atty`-based `support` module in the new revision),
the Windows `enable_ansi_support` routine, and the predefined constant
catalogue entries relevant to the claims.

Platform boundaries (`libc::isatty`, `atty::is`, the Win32 console calls)
are modelled as explicit parameters, so every definition is a pure,
executable Lean function.
-/

namespace TermCtrl

/-! ## The sequence-building macros (src/src/macros.rs)

The macro `codes!` concatenates its arguments with `";"` separators:
`codes!(n1, n2, ...)` expands to `concat!(n1, concat!(";", n2), ...)`,
`codes!(n)` to `concat!(n)`, and `codes!()` to `""`.  Arguments may be
numeric literals (rendered in decimal by `concat!`) or string literals
(kept verbatim), so the base model works over strings and wrappers map
numeric code lists through decimal rendering. -/

/-- Model of the `codes!` macro over already-rendered arguments: the
expansion `concat!(n1, concat!(";", n2), concat!(";", n3), ...)`
concatenates left to right. -/
def codes : List String → String
  | [] => ""
  | s :: rest => rest.foldl (fun acc t => acc ++ (";" ++ t)) s

/-- The `seq!` macro: its first arm `($($n:expr),*)` matches every arity,
zero included, and expands to `concat!("\u{1B}[", codes!(...), "m")`;
the later one-argument and zero-argument arms are unreachable. -/
def seq (args : List String) : String :=
  "\x1B[" ++ codes args ++ "m"

/-- The `codes!` macro applied to a list of numeric-literal codes, which
`concat!` renders in decimal. -/
def codesN (cs : List Nat) : String :=
  codes (cs.map Nat.repr)

/-- The `seq!` macro applied to a list of numeric-literal codes. -/
def seqN (cs : List Nat) : String :=
  seq (cs.map Nat.repr)

/-- The older `term_seq!` macro (src/lib.rs): its arms require at least one
argument, so invocation with zero codes matches no arm and is rejected at
expansion time; with codes `n :: rest` it expands to
`concat!("\u{1B}[", n, concat!(";", m)..., "m")`. -/
def term_seq : List Nat → Option String
  | [] => none
  | n :: rest =>
      some ("\x1B[" ++ (rest.map Nat.repr).foldl (fun acc t => acc ++ (";" ++ t)) (Nat.repr n)
            ++ "m")

/-- The `c256_fg!` macro: `codes!(38, 5, $col)`. -/
def c256_fg (col : Nat) : String :=
  codes ["38", "5", Nat.repr col]

/-- The `c256_bg!` macro: `codes!(48, 5, $col)`. -/
def c256_bg (col : Nat) : String :=
  codes ["48", "5", Nat.repr col]

/-- The `rgb_fg!` macro: `codes!(38, 2, $red, $green, $blue)`. -/
def rgb_fg (red green blue : Nat) : String :=
  codes ["38", "2", Nat.repr red, Nat.repr green, Nat.repr blue]

/-- The `rgb_bg!` macro: `codes!(48, 2, $red, $green, $blue)`. -/
def rgb_bg (red green blue : Nat) : String :=
  codes ["48", "2", Nat.repr red, Nat.repr green, Nat.repr blue]

/-- Spec-side rendering of "joined by `;`": plain semicolon-separated join
of a list of strings, exactly as the spec words it. -/
def joinSemicolons : List String → String
  | [] => ""
  | [s] => s
  | s :: rest => s ++ ";" ++ joinSemicolons rest

/-! ## The stream-capability checks

Old revision (src/lib.rs): a `StdPipe` enum whose `fmt_supported` method
hardwires stdin to `false` and otherwise consults `libc::isatty`; plus the
free functions `fmt_supported_stdout`, `fmt_supported_stderr`,
`use_fmt_stdout`, `use_fmt_stderr` layered on it.  On Windows the method
body is the constant `false`.

New revision (src/src/support.rs): free functions delegating to
`atty::is(atty::Stream::Stdout)` / `atty::is(atty::Stream::Stderr)`, plus
the same `use_fmt_*` combinators, plus the Windows-only
`enable_ansi_support`. -/

/-- The `StdPipe` enum (src/lib.rs). -/
inductive StdPipe
  | StdIn
  | StdOut
  | StdErr
deriving DecidableEq

/-- Unix `StdPipe::fmt_supported` (src/lib.rs): `StdIn` is matched to
`false` outright; for the other pipes the integer returned by
`libc::isatty` on the pipe's descriptor is matched, `0` giving `false`
and anything else `true`.  The `isatty` platform call is a parameter. -/
def StdPipe.fmt_supported_unix (isatty : StdPipe → Int) (p : StdPipe) : Bool :=
  match p with
  | StdPipe.StdIn => false
  | _ =>
      match isatty p with
      | 0 => false
      | _ => true

/-- Windows `StdPipe::fmt_supported` (src/lib.rs): the body is the literal
`false`, for every pipe. -/
def StdPipe.fmt_supported_windows (_p : StdPipe) : Bool :=
  false

/-- Old revision `fmt_supported_stdout` (src/lib.rs, unix build). -/
def fmt_supported_stdout_unix (isatty : StdPipe → Int) : Bool :=
  StdPipe.fmt_supported_unix isatty StdPipe.StdOut

/-- Old revision `fmt_supported_stderr` (src/lib.rs, unix build). -/
def fmt_supported_stderr_unix (isatty : StdPipe → Int) : Bool :=
  StdPipe.fmt_supported_unix isatty StdPipe.StdErr

/-- Old revision `use_fmt_stdout` (src/lib.rs, unix build):
`user_pref && StdPipe::fmt_supported(StdPipe::StdOut)`. -/
def use_fmt_stdout_unix (user_pref : Bool) (isatty : StdPipe → Int) : Bool :=
  user_pref && StdPipe.fmt_supported_unix isatty StdPipe.StdOut

/-- Old revision `use_fmt_stderr` (src/lib.rs, unix build). -/
def use_fmt_stderr_unix (user_pref : Bool) (isatty : StdPipe → Int) : Bool :=
  user_pref && StdPipe.fmt_supported_unix isatty StdPipe.StdErr

/-- Old revision `fmt_supported_stdout` on the Windows build. -/
def fmt_supported_stdout_windows : Bool :=
  StdPipe.fmt_supported_windows StdPipe.StdOut

/-- Old revision `fmt_supported_stderr` on the Windows build. -/
def fmt_supported_stderr_windows : Bool :=
  StdPipe.fmt_supported_windows StdPipe.StdErr

/-- Old revision `use_fmt_stdout` on the Windows build. -/
def use_fmt_stdout_windows (user_pref : Bool) : Bool :=
  user_pref && StdPipe.fmt_supported_windows StdPipe.StdOut

/-- Old revision `use_fmt_stderr` on the Windows build. -/
def use_fmt_stderr_windows (user_pref : Bool) : Bool :=
  user_pref && StdPipe.fmt_supported_windows StdPipe.StdErr

/-- The `atty::Stream` enum consulted by the new revision's support module
(only the two variants the module uses). -/
inductive AttyStream
  | Stdout
  | Stderr
deriving DecidableEq

namespace support

/-- New revision `fmt_supported_stdout` (src/src/support.rs):
`atty::is(atty::Stream::Stdout)`, with the `atty` probe a parameter. -/
def fmt_supported_stdout (atty_is : AttyStream → Bool) : Bool :=
  atty_is AttyStream.Stdout

/-- New revision `fmt_supported_stderr` (src/src/support.rs):
`atty::is(atty::Stream::Stderr)`. -/
def fmt_supported_stderr (atty_is : AttyStream → Bool) : Bool :=
  atty_is AttyStream.Stderr

/-- New revision `use_fmt_stdout` (src/src/support.rs):
`user_pref && fmt_supported_stdout()`. -/
def use_fmt_stdout (user_pref : Bool) (atty_is : AttyStream → Bool) : Bool :=
  user_pref && fmt_supported_stdout atty_is

/-- New revision `use_fmt_stderr` (src/src/support.rs). -/
def use_fmt_stderr (user_pref : Bool) (atty_is : AttyStream → Bool) : Bool :=
  user_pref && fmt_supported_stderr atty_is

end support

/-- Outcomes of the Win32 console calls made by `enable_ansi_support`: for
each of the three calls, the `GetLastError` value observed right after it
(`0` meaning success), plus the console mode bitmask read by
`GetConsoleMode`.  Error codes are `u32` values; `Nat` carries them. -/
structure WinConsole where
  getStdHandleLastError : Nat
  getConsoleModeLastError : Nat
  consoleMode : Nat
  setConsoleModeLastError : Nat

/-- The `ENABLE_VIRTUAL_TERMINAL_PROCESSING` console-mode bit. -/
def ENABLE_VIRTUAL_TERMINAL_PROCESSING : Nat := 4

/-- The `handle_error!` macro inside `enable_ansi_support`:
`match GetLastError() { 0 => Ok(result), e => Err(e) }`. -/
def handle_error (lastError : Nat) : Except Nat Unit :=
  match lastError with
  | 0 => Except.ok ()
  | e => Except.error e

/-- support.rs `enable_ansi_support` (Windows only): fetch the stdout
handle, read the console mode, and set the virtual-terminal bit when it is
not already set, propagating the first nonzero `GetLastError` value through
the `?` operator and otherwise returning `Ok(())`. -/
def enable_ansi_support (w : WinConsole) : Except Nat Unit :=
  match handle_error w.getStdHandleLastError with
  | Except.error e => Except.error e
  | Except.ok _ =>
      match handle_error w.getConsoleModeLastError with
      | Except.error e => Except.error e
      | Except.ok _ =>
          if w.consoleMode &&& ENABLE_VIRTUAL_TERMINAL_PROCESSING = 0 then
            match handle_error w.setConsoleModeLastError with
            | Except.error e => Except.error e
            | Except.ok _ => Except.ok ()
          else
            Except.ok ()

/-! ## Predefined catalogue entries relevant to the claims
(src/src/predefined.rs and src/src/codes.rs) -/

namespace predefined

namespace effects

namespace remove

/-- predefined.rs `effects::remove::INVERSE`: `seq!(27)`. -/
def INVERSE : String := seqN [27]

/-- predefined.rs `effects::remove::INVISIBLE`: `seq!(28)`. -/
def INVISIBLE : String := seqN [28]

end remove

/-- predefined.rs `effects::POSITIVE`, documented "Alias for removing
inverse" but bound to `remove::INVISIBLE`. -/
def POSITIVE : String := remove.INVISIBLE

/-- predefined.rs `effects::VISIBLE`, bound to `remove::INVISIBLE`. -/
def VISIBLE : String := remove.INVISIBLE

end effects

end predefined

namespace codeConsts

namespace effects

namespace remove

/-- codes.rs `effects::remove::INVERSE`: `codes!(27)`. -/
def INVERSE : String := codesN [27]

/-- codes.rs `effects::remove::INVISIBLE`: `codes!(28)`. -/
def INVISIBLE : String := codesN [28]

end remove

/-- codes.rs `effects::POSITIVE`, documented "Alias for removing inverse"
but bound to `remove::INVISIBLE`. -/
def POSITIVE : String := remove.INVISIBLE

/-- codes.rs `effects::VISIBLE`, bound to `remove::INVISIBLE`. -/
def VISIBLE : String := remove.INVISIBLE

end effects

end codeConsts

/-- A probe outcome in which `isatty` reports `0` on every descriptor
(not a tty, or the query itself failed). -/
def isattyAllZero : StdPipe → Int := fun _ => 0

/-- An attachment state in which the `atty` probe reports every stream as
connected to a terminal. -/
def attyAllTty : AttyStream → Bool := fun _ => true

/-- Attachment state of the standard streams: whether each is connected to
a terminal.  On Unix `libc::isatty` returns nonzero exactly on descriptors
attached to a terminal, and the `atty` crate reports that same attachment
fact as a boolean; both probes below are derived from one such state. -/
structure TtyState where
  stdinTty : Bool
  stdoutTty : Bool
  stderrTty : Bool

/-- The `libc::isatty` outcome determined by an attachment state. -/
def TtyState.isatty (t : TtyState) : StdPipe → Int
  | StdPipe.StdIn => if t.stdinTty then 1 else 0
  | StdPipe.StdOut => if t.stdoutTty then 1 else 0
  | StdPipe.StdErr => if t.stderrTty then 1 else 0

/-- The `atty::is` outcome determined by an attachment state. -/
def TtyState.atty_is (t : TtyState) : AttyStream → Bool
  | AttyStream.Stdout => t.stdoutTty
  | AttyStream.Stderr => t.stderrTty

/-! ## Helper lemmas -/

theorem joinSemicolons_append_head (a b : String) (l : List String) :
    joinSemicolons ((a ++ b) :: l) = a ++ joinSemicolons (b :: l) := by
  cases l with
  | nil => rfl
  | cons t ts =>
      show (a ++ b) ++ ";" ++ joinSemicolons (t :: ts)
        = a ++ (b ++ ";" ++ joinSemicolons (t :: ts))
      apply String.ext
      simp

theorem foldl_semi_eq_join (l : List String) (s : String) :
    l.foldl (fun acc t => acc ++ (";" ++ t)) s = joinSemicolons (s :: l) := by
  induction l generalizing s with
  | nil => rfl
  | cons t ts ih =>
      show ts.foldl (fun acc t => acc ++ (";" ++ t)) (s ++ (";" ++ t))
        = joinSemicolons (s :: t :: ts)
      rw [ih (s ++ (";" ++ t)), joinSemicolons_append_head s (";" ++ t) ts,
          joinSemicolons_append_head ";" t ts]
      show s ++ (";" ++ joinSemicolons (t :: ts)) = s ++ ";" ++ joinSemicolons (t :: ts)
      apply String.ext
      simp

theorem codes_eq_join (cs : List String) :
    codes cs = joinSemicolons cs := by
  cases cs with
  | nil => rfl
  | cons s rest => exact foldl_semi_eq_join rest s

theorem joinSemicolons_append (a b : String) (A B : List String) :
    joinSemicolons ((a :: A) ++ (b :: B)) =
      joinSemicolons (a :: A) ++ ";" ++ joinSemicolons (b :: B) := by
  induction A generalizing a with
  | nil => rfl
  | cons t ts ih =>
      show a ++ ";" ++ joinSemicolons ((t :: ts) ++ (b :: B))
        = (a ++ ";" ++ joinSemicolons (t :: ts)) ++ ";" ++ joinSemicolons (b :: B)
      rw [ih t]
      apply String.ext
      simp

theorem codes_append (a b : String) (A B : List String) :
    codes ((a :: A) ++ (b :: B)) = codes (a :: A) ++ ";" ++ codes (b :: B) := by
  rw [codes_eq_join, codes_eq_join, codes_eq_join]
  exact joinSemicolons_append a b A B

theorem codesN_append (a b : Nat) (A B : List Nat) :
    codesN ((a :: A) ++ (b :: B)) = codesN (a :: A) ++ ";" ++ codesN (b :: B) := by
  unfold codesN
  rw [List.map_append]
  exact codes_append (Nat.repr a) (Nat.repr b) (A.map Nat.repr) (B.map Nat.repr)

/-! ## Claim theorems -/

/-- Claim C1: for every non-empty ordered list of codes, the `seq!` macro
(and equivalently the older `term_seq!` macro) produces exactly the string
`"\x1B["` followed by the decimal renderings of the codes joined by `";"`
followed by `"m"`; in particular `seq!(1) = "\x1B[1m"`,
`seq!(31,1,4) = "\x1B[31;1;4m"` and
`seq!(4,8,15,16,23,42) = "\x1B[4;8;15;16;23;42m"`. -/
theorem seq_builder_nonempty_renders_join (c : Nat) (cs : List Nat) :
    seqN (c :: cs) = "\x1B[" ++ joinSemicolons ((c :: cs).map Nat.repr) ++ "m"
    ∧ term_seq (c :: cs) = some (seqN (c :: cs))
    ∧ seqN [1] = "\x1B[1m"
    ∧ seqN [31, 1, 4] = "\x1B[31;1;4m"
    ∧ seqN [4, 8, 15, 16, 23, 42] = "\x1B[4;8;15;16;23;42m" := by
  refine ⟨?_, rfl, by decide, by decide, by decide⟩
  show seq ((c :: cs).map Nat.repr) = _
  unfold seq
  rw [codes_eq_join]

/-- Claim C2 counterexample: composing with `";"` outside the finished
sequence is not how fragments embed; appending `";38;5;238"` after the
built sequence `seq!(1)` gives `"\x1B[1m;38;5;238"`, which differs from
`seq!(1,38,5,238) = "\x1B[1;38;5;238m"`. -/
theorem fragment_composition_outside_builder_fails :
    ((seqN [1] ++ ";" ++ c256_fg 238) == seqN [1, 38, 5, 238]) = false := by
  decide

/-- Claim C2 (amended): fragment composition is associative at the code
level, before wrapping: for non-empty flat code lists `A` and `B`,
`codes!(A) ++ ";" ++ codes!(B) = codes!(A ++ B)`, and the builder applied
to the joined fragment equals `build(A, B)`; concretely the 256-colour
foreground helper at 238 is the fragment `"38;5;238"`, embedding it in the
builder yields `"\x1B[38;5;238m"`, the RGB background helper at
`(180,15,70)` is `"48;2;180;15;70"`, and embedding it yields
`"\x1B[48;2;180;15;70m"`. -/
theorem fragment_composition_amended (a b : Nat) (A B : List Nat) :
    codesN (a :: A) ++ ";" ++ codesN (b :: B) = codesN ((a :: A) ++ (b :: B))
    ∧ seq [codesN (a :: A) ++ ";" ++ codesN (b :: B)] = seqN ((a :: A) ++ (b :: B))
    ∧ c256_fg 238 = "38;5;238"
    ∧ seq [c256_fg 238] = "\x1B[38;5;238m"
    ∧ rgb_bg 180 15 70 = "48;2;180;15;70"
    ∧ seq [rgb_bg 180 15 70] = "\x1B[48;2;180;15;70m" := by
  refine ⟨(codesN_append a b A B).symm, ?_, by decide, by decide, by decide, by decide⟩
  show "\x1B[" ++ codes [codesN (a :: A) ++ ";" ++ codesN (b :: B)] ++ "m" = _
  rw [show codes [codesN (a :: A) ++ ";" ++ codesN (b :: B)]
        = codesN (a :: A) ++ ";" ++ codesN (b :: B) from rfl,
      ← codesN_append a b A B]
  rfl

/-- Claim C3 counterexample: invoked with zero codes, `seq!` neither
rejects the invocation nor yields the bare prefix `"\x1B["`; its first
macro arm matches the empty argument list and silently produces the string
`"\x1B[m"`. -/
theorem seq_zero_codes_counterexample :
    seqN [] = "\x1B[m" ∧ ((seqN []) == "\x1B[") = false := by
  constructor
  · rfl
  · decide

/-- Claim C3 (amended): with zero codes the older `term_seq!` macro is
rejected (no arm of the macro matches, a compile-time usage error), while
`seq!` silently produces `"\x1B[m"` — the prefix directly followed by the
terminating `m` with no codes — because its variadic first arm also
matches the empty argument list, making its dedicated zero-argument arm
(which would produce `""`) unreachable. -/
theorem seq_zero_codes_behavior :
    seqN [] = "\x1B[m" ∧ term_seq [] = none :=
  ⟨rfl, rfl⟩

/-- Claim C4: querying format-sequence support for stdin returns `false`
unconditionally — on the Unix build for every outcome of the `isatty`
probe (which is never even consulted for stdin), and on the Windows build
outright. -/
theorem stdin_never_supported (isatty : StdPipe → Int) :
    StdPipe.fmt_supported_unix isatty StdPipe.StdIn = false
    ∧ StdPipe.fmt_supported_windows StdPipe.StdIn = false :=
  ⟨rfl, rfl⟩

/-- Claim C5: in both revisions, `use_fmt_stdout`/`use_fmt_stderr` return
exactly `user_pref && is_supported(stream)`, and when the preference is
`false` the result is `false` for every possible probe outcome — the
result does not depend on the probe, which renders the short-circuit (the
platform probe need not be invoked) in the embedding. -/
theorem use_fmt_is_pref_and_support (p : Bool) (isatty : StdPipe → Int)
    (atty_is : AttyStream → Bool) :
    use_fmt_stdout_unix p isatty = (p && fmt_supported_stdout_unix isatty)
    ∧ use_fmt_stderr_unix p isatty = (p && fmt_supported_stderr_unix isatty)
    ∧ support.use_fmt_stdout p atty_is = (p && support.fmt_supported_stdout atty_is)
    ∧ support.use_fmt_stderr p atty_is = (p && support.fmt_supported_stderr atty_is)
    ∧ use_fmt_stdout_unix false isatty = false
    ∧ use_fmt_stderr_unix false isatty = false
    ∧ support.use_fmt_stdout false atty_is = false
    ∧ support.use_fmt_stderr false atty_is = false :=
  ⟨rfl, rfl, rfl, rfl, rfl, rfl, rfl, rfl⟩

/-- Claim C6: the capability check is total into the booleans, and an
error or indeterminate outcome of the platform probe — `isatty` returning
`0`, which is its value both for "not a tty" and for a failed query —
makes `fmt_supported` return `false`, never `true`, with no error
surfaced to the caller. -/
theorem probe_error_collapses_to_false (isatty : StdPipe → Int) (p : StdPipe) :
    (isatty p = 0 → StdPipe.fmt_supported_unix isatty p = false)
    ∧ (StdPipe.fmt_supported_unix isatty p = true
        ∨ StdPipe.fmt_supported_unix isatty p = false) := by
  constructor
  · intro h
    cases p <;> simp [StdPipe.fmt_supported_unix, h]
  · exact Bool.eq_false_or_eq_true _

/-- Witness for claim C6's theorem at the concrete probe that reports `0`
on every descriptor. -/
theorem probe_error_collapses_to_false_witness :
    isattyAllZero StdPipe.StdOut = 0
    ∧ StdPipe.fmt_supported_unix isattyAllZero StdPipe.StdOut = false :=
  ⟨rfl, (probe_error_collapses_to_false isattyAllZero StdPipe.StdOut).1 rfl⟩

/-- Claim C7: on the platform variant lacking a reliable general mechanism
to detect and enable control-sequence interpretation (the Windows build of
the old revision), the basic capability check returns `false` for every
stream unconditionally, and so do the `fmt_supported_stdout` /
`fmt_supported_stderr` wrappers built on it. -/
theorem windows_check_unconditionally_false (p : StdPipe) :
    StdPipe.fmt_supported_windows p = false
    ∧ fmt_supported_stdout_windows = false
    ∧ fmt_supported_stderr_windows = false :=
  ⟨rfl, rfl, rfl⟩

/-- Claim C8: `enable_ansi_support` always returns a value — either
success `Ok(())` or a platform error code as `Err(e)` with `e` a nonzero
`GetLastError` value — for every possible outcome of the three Win32
console calls; failure is a recoverable value handed to the caller, never
a panic or process abort. -/
theorem enable_ansi_support_total_result (w : WinConsole) :
    enable_ansi_support w = Except.ok ()
    ∨ ∃ e : Nat, 0 < e ∧ enable_ansi_support w = Except.error e := by
  rcases hw1 : w.getStdHandleLastError with _ | e1
  · rcases hw2 : w.getConsoleModeLastError with _ | e2
    · by_cases hm : w.consoleMode &&& ENABLE_VIRTUAL_TERMINAL_PROCESSING = 0
      · rcases hw3 : w.setConsoleModeLastError with _ | e3
        · left
          simp [enable_ansi_support, handle_error, hw1, hw2, hw3, hm]
        · right
          exact ⟨e3 + 1, Nat.succ_pos e3,
            by simp [enable_ansi_support, handle_error, hw1, hw2, hw3, hm]⟩
      · left
        simp [enable_ansi_support, handle_error, hw1, hw2, hm]
    · right
      exact ⟨e2 + 1, Nat.succ_pos e2,
        by simp [enable_ansi_support, handle_error, hw1, hw2]⟩
  · right
    exact ⟨e1 + 1, Nat.succ_pos e1,
      by simp [enable_ansi_support, handle_error, hw1]⟩

/-- Claim C9 counterexample: the two revisions of the capability check are
not equivalent on every platform — on the Windows build, with every stream
attached to a console, the old revision's `fmt_supported_stdout` is
`false` while the new `atty`-based one reports the attachment verdict
`true`. -/
theorem revisions_differ_on_windows :
    (fmt_supported_stdout_windows == support.fmt_supported_stdout attyAllTty) = false := by
  decide

/-- Claim C9 (amended): on Unix the two revisions agree — for every
attachment state of the standard streams, the old `isatty`-based
`fmt_supported_stdout`/`fmt_supported_stderr` return the same boolean as
the new `atty`-based ones; on Windows they differ, the old revision being
constantly `false` while the new one returns the console-attachment
verdict. -/
theorem revisions_agree_on_unix (t : TtyState) :
    fmt_supported_stdout_unix (t.isatty) = support.fmt_supported_stdout (t.atty_is)
    ∧ fmt_supported_stderr_unix (t.isatty) = support.fmt_supported_stderr (t.atty_is)
    ∧ fmt_supported_stdout_windows = false
    ∧ support.fmt_supported_stdout (t.atty_is) = t.stdoutTty
    ∧ support.fmt_supported_stderr (t.atty_is) = t.stderrTty := by
  refine ⟨?_, ?_, rfl, rfl, rfl⟩
  · cases h : t.stdoutTty <;>
      simp [fmt_supported_stdout_unix, StdPipe.fmt_supported_unix, TtyState.isatty,
            support.fmt_supported_stdout, TtyState.atty_is, h]
  · cases h : t.stderrTty <;>
      simp [fmt_supported_stderr_unix, StdPipe.fmt_supported_unix, TtyState.isatty,
            support.fmt_supported_stderr, TtyState.atty_is, h]

/-- Claim C10: in the predefined catalogue the alias constants `POSITIVE`
(documented as removing the inverse effect, code 27) and `VISIBLE` are
both bound to the remove-invisible sequence `"\x1B[28m"`, and `POSITIVE`
differs from `remove::INVERSE = "\x1B[27m"`; the code-fragment constants
in the codes module alias the same way (`"28"` versus `"27"`). -/
theorem positive_visible_alias_binding :
    predefined.effects.POSITIVE = "\x1B[28m"
    ∧ predefined.effects.VISIBLE = "\x1B[28m"
    ∧ predefined.effects.POSITIVE = predefined.effects.remove.INVISIBLE
    ∧ predefined.effects.remove.INVERSE = "\x1B[27m"
    ∧ ((predefined.effects.POSITIVE == predefined.effects.remove.INVERSE) = false)
    ∧ codeConsts.effects.POSITIVE = "28"
    ∧ codeConsts.effects.VISIBLE = "28"
    ∧ ((codeConsts.effects.POSITIVE == codeConsts.effects.remove.INVERSE) = false) := by
  refine ⟨by decide, by decide, rfl, by decide, by decide, by decide, by decide, by decide⟩

end TermCtrl
